import Mathlib

/-!
# Verification of the sonor manager (topology tracker / subscription manager / command router)

Shallow embedding of `src/manager/controller.rs`, `src/manager/controller/zoneaction.rs`
and `src/manager/mediasource.rs`.  Network collaborators (UPnP device resolution,
subscription transport, discovery, remote transport actions, content browsing and the
external `urlencoding`/`xml-escape` crates) are modelled as an explicit environment
(`Env`) of oracle functions; the controller logic itself is translated directly from
the source.  Machine integers are modelled as `Nat`/`Int` with explicit wrap-around
where the source performs 32-bit arithmetic.
-/

deriving instance DecidableEq for Except

namespace Sonor

/-- ASCII lowercasing of one character, as Rust's `u8::to_ascii_lowercase`. -/
def asciiLower (c : Char) : Char :=
  if 'A' ≤ c ∧ c ≤ 'Z' then Char.ofNat (c.toNat + 32) else c

/-- Rust `str::eq_ignore_ascii_case`. -/
def eqIgnoreAsciiCase (a b : String) : Bool :=
  a.data.map asciiLower == b.data.map asciiLower

/-- The ASCII-case-insensitive key of a string (used to reason about
`eqIgnoreAsciiCase` as an equivalence). -/
def ciKey (s : String) : List Char :=
  s.data.map asciiLower

/-- `SpeakerInfo` (src/datatypes.rs / speaker.rs): name, uuid and network location
of a zone-group member. -/
structure SpeakerInfo where
  name : String
  uuid : String
  location : String
deriving DecidableEq, Repr

/-- `Speaker` (src/speaker.rs): a resolved device.  The `rupnp::Device` handle is
represented by its URL; all remote operations on it go through the `Env` oracles. -/
structure Speaker where
  info : SpeakerInfo
  deviceUrl : String
deriving DecidableEq, Repr

/-- Latest cached AV-transport status: a field→value list (`AVStatus` in types.rs). -/
abbrev AVStatus := List (String × String)

abbrev Uuid := String

/-- `Topology` (types.rs): coordinator uuid → member infos, as parsed from a
zone-group-state payload. -/
abbrev Topology := List (Uuid × List SpeakerInfo)

/-- `ReducedTopology` (types.rs): coordinator uuid → member uuids. -/
abbrev ReducedTopology := List (Uuid × List Uuid)

/-- The service URNs the controller distinguishes (src/urns.rs). -/
inductive URN where
  | avTransport
  | zoneGroupTopology
  | otherService (s : String)
deriving DecidableEq, Repr

/-- Errors of the core crate (src/lib.rs `Error`); only the variants reachable from
the embedded code are represented. -/
inductive SonorError where
  | NoSpeakersDetected
  | MissingServiceForUPnPAction (service : URN)
  | SpeakerNotIncludedInOwnZoneGroupState
  | UPnPError
deriving DecidableEq, Repr

/-- Errors of the manager module (src/manager/error.rs together with the variants
used by zoneaction.rs / mediasource.rs). -/
inductive MgrError where
  | Sonor (e : SonorError)
  | SubscriberError
  | ContentNotFound
  | ZoneActionError
  | ControllerNotInitialized
deriving DecidableEq, Repr

/-- `SpeakerData` (controller.rs): a registered device record. The optional
`Subscriber` is represented by the watch-receiver id it produced. -/
structure SpeakerData where
  speaker : Speaker
  transport_subscription : Option Nat
  transport_data : AVStatus
deriving DecidableEq, Repr

/-- `SpeakerData::new`. -/
def SpeakerData.new (s : Speaker) : SpeakerData :=
  { speaker := s, transport_subscription := none, transport_data := [] }

/-- `Controller` (controller.rs).  The topology `Subscriber` object carries no
observable state of its own (it is replaced wholesale on resubscribe), and the
command receiver is supplied to the run loop directly, so neither is a field here. -/
structure Controller where
  speakerdata : List SpeakerData
  topology : ReducedTopology
  queued_event_handles : List Nat
deriving DecidableEq, Repr

/-- Remote calls issued against a speaker, used to record which network operations
an action attempts and in which order. -/
inductive RemoteCall where
  | trackQuery
  | browse (category : String)
  | seekTrack (trackNo : Nat)
  | clearQueue
  | queueNext (uri metadata : String) (pos : Option Nat)
  | setTransportUri (uri metadata : String)
  | play
  | upnp (action : String)
deriving DecidableEq, Repr

/-- Whether a remote call changes device state (everything except the read-only
track query and content browsing). -/
def isMutating : RemoteCall → Bool
  | .trackQuery => false
  | .browse _ => false
  | _ => true

/-- A content-directory entry as returned by `Speaker::browse` (playlists,
favorites); `uri`/`metadata` mirror the `Option`-returning accessors. -/
structure ContentItem where
  title : String
  uri : Option String
  metadata : Option String
deriving DecidableEq, Repr

/-- The environment: every network collaborator and external crate the embedded
code calls into.  Each field is one suspension point of the Rust code. -/
structure Env where
  /-- `Speaker::from_speaker_info`: resolve a device from its last known
  descriptor; `ok none` means the device answered but is not a sonos player. -/
  fromSpeakerInfo : SpeakerInfo → Except SonorError (Option Speaker)
  /-- `Controller::get_av_transport_subscription`: find the AV-transport service
  and subscribe; `some rx` is the watch receiver on success. -/
  avSubscribe : Speaker → Option Nat
  /-- `Device::find_service(urn).is_some()`. -/
  findService : Speaker → URN → Bool
  /-- topology `Subscriber::subscribe`: `some rx` on success. -/
  topoSubscribe : Speaker → Option Nat
  /-- `fastrand::usize(..len)`: the random index source. -/
  randIdx : Nat → Nat
  /-- `discover_one` followed by `_zone_group_state` on the found speaker. -/
  discover : Except SonorError Topology
  /-- `Speaker::track`: live position query; `ok none` when nothing is playing. -/
  trackQuery : Speaker → Except SonorError (Option Nat)
  /-- A state-changing transport call on a speaker (seek, queue, play, ...). -/
  transportCall : Speaker → RemoteCall → Except SonorError Unit
  /-- A read-only coordinator query with an elided payload (GetQueue, snapshot). -/
  queryCall : Speaker → String → Except SonorError Unit
  /-- `Speaker::browse(category, 0, 0)`. -/
  browse : Speaker → String → Except SonorError (List ContentItem)
  /-- `urlencoding::encode`. -/
  encode : String → String
  /-- `xml::escape::escape_str_pcdata`. -/
  escapePcdata : String → String

/-! ## Topology store: `Controller::update_from_topology` -/

/-- The incoming coordinator→member-uuid mapping
(`system_topology.iter().map(|(uuid, infos)| (uuid, infos.map(|i| i.uuid())))`). -/
def reduceTopology (t : Topology) : ReducedTopology :=
  t.map (fun p => (p.1, p.2.map SpeakerInfo.uuid))

/-- All member infos of a snapshot
(`system_topology.into_iter().flat_map(|(_, infos)| infos)`). -/
def topoInfos (t : Topology) : List SpeakerInfo :=
  (t.map Prod.snd).flatten

/-- The `speakerdata.retain(..)` step: keep records whose uuid still occurs in the
incoming snapshot (`info.uuid().eq_ignore_ascii_case(sd.speaker.uuid())`). -/
def retainKnown (infos : List SpeakerInfo) (sds : List SpeakerData) : List SpeakerData :=
  sds.filter (fun sd => infos.any (fun info => eqIgnoreAsciiCase info.uuid sd.speaker.info.uuid))

/-- `speakerdata.iter_mut().find(|sd| sd.speaker.uuid().eq_ignore_ascii_case(info.uuid()))`
followed by `speakerdata.speaker.info = info`: update the first record with a
matching uuid in place; `none` when no record matches. -/
def updateFirst (info : SpeakerInfo) : List SpeakerData → Option (List SpeakerData)
  | [] => none
  | sd :: rest =>
    if eqIgnoreAsciiCase sd.speaker.info.uuid info.uuid then
      some ({ sd with speaker := { sd.speaker with info := info } } :: rest)
    else
      (updateFirst info rest).map (sd :: ·)

/-- The `for info in infos` loop of `update_from_topology`: update an existing
record or resolve and append a new one (best-effort AV-transport subscription).
An error aborts the loop; the state mutated so far is kept, as the Rust `?`
leaves `self` partially updated. -/
def applyInfos (env : Env) : Controller → List SpeakerInfo → Controller × Option SonorError
  | st, [] => (st, none)
  | st, info :: rest =>
    match updateFirst info st.speakerdata with
    | some sds => applyInfos env { st with speakerdata := sds } rest
    | none =>
      match env.fromSpeakerInfo info with
      | .error e => (st, some e)
      | .ok none => (st, some .SpeakerNotIncludedInOwnZoneGroupState)
      | .ok (some sp) =>
        match env.avSubscribe sp with
        | some rx =>
          applyInfos env
            { st with
              speakerdata := st.speakerdata ++ [{ SpeakerData.new sp with transport_subscription := some rx }],
              queued_event_handles := st.queued_event_handles ++ [rx] } rest
        | none =>
          applyInfos env { st with speakerdata := st.speakerdata ++ [SpeakerData.new sp] } rest

/-- `Controller::update_from_topology`: drop records absent from the snapshot,
update or add a record per incoming member, then replace the stored mapping.
The mapping is only replaced when the whole update succeeded (the Rust function
assigns `self.topology` after the loop); on error the partially updated
registry is returned together with the error. -/
def update_from_topology (env : Env) (st : Controller) (t : Topology) :
    Controller × Option SonorError :=
  let infos := topoInfos t
  let st1 := { st with speakerdata := retainKnown infos st.speakerdata }
  match applyInfos env st1 infos with
  | (st2, none) => ({ st2 with topology := reduceTopology t }, none)
  | (st2, some e) => (st2, some e)

/-- `Controller::discover_system`: discover one speaker, fetch its zone-group
state and apply it; an apply error is logged (`unwrap_or_else(warn)`) keeping
the partial state, a discovery error propagates. -/
def discover_system (env : Env) (st : Controller) : Except MgrError Controller :=
  match env.discover with
  | .error e => .error (.Sonor e)
  | .ok topo => .ok (update_from_topology env st topo).1

/-! ## Registry lookups (controller.rs) -/

/-- `Controller::get_speaker_with_name`: first record whose display name matches
ASCII-case-insensitively. -/
def get_speaker_with_name (st : Controller) (name : String) : Option Speaker :=
  st.speakerdata.findSome? (fun s =>
    if eqIgnoreAsciiCase s.speaker.info.name name then some s.speaker else none)

/-- `Controller::get_speaker_by_uuid`. -/
def get_speaker_by_uuid (st : Controller) (uuid : String) : Option Speaker :=
  st.speakerdata.findSome? (fun s =>
    if eqIgnoreAsciiCase s.speaker.info.uuid uuid then some s.speaker else none)

/-- `Controller::get_speakerdata_by_uuid`. -/
def get_speakerdata_by_uuid (st : Controller) (uuid : String) : Option SpeakerData :=
  st.speakerdata.find? (fun s => eqIgnoreAsciiCase s.speaker.info.uuid uuid)

/-- The topology lookup shared by `get_coordinator_for_uuid` and
`get_coordinatordata_for_uuid`: the coordinator uuid of the first group having a
member uuid that matches (`uuid.eq_ignore_ascii_case(speaker_uuid)`). -/
def coordinatorUuidFor (st : Controller) (speaker_uuid : String) : Option Uuid :=
  st.topology.findSome? (fun p =>
    if p.2.any (fun u => eqIgnoreAsciiCase u speaker_uuid) then some p.1 else none)

/-- `Controller::get_coordinator_for_uuid`. -/
def get_coordinator_for_uuid (st : Controller) (speaker_uuid : String) : Option Speaker :=
  (coordinatorUuidFor st speaker_uuid).bind (get_speaker_by_uuid st)

/-- `Controller::get_coordinatordata_for_uuid`. -/
def get_coordinatordata_for_uuid (st : Controller) (speaker_uuid : String) : Option SpeakerData :=
  (coordinatorUuidFor st speaker_uuid).bind (get_speakerdata_by_uuid st)

/-- `Controller::get_coordinator_for_name`. -/
def get_coordinator_for_name (st : Controller) (name : String) : Option Speaker :=
  (get_speaker_with_name st name).bind (fun sp => get_coordinator_for_uuid st sp.info.uuid)

/-- `Controller::get_coordinatordata_for_name`. -/
def get_coordinatordata_for_name (st : Controller) (name : String) : Option SpeakerData :=
  (get_speaker_with_name st name).bind (fun sp => get_coordinatordata_for_uuid st sp.info.uuid)

/-- `Controller::pop_speakerdata_by_uuid`: `position` + `swap_remove` — the
removed slot is filled with the last element. -/
def popByUuid (sds : List SpeakerData) (uuid : String) : Option (SpeakerData × List SpeakerData) :=
  match sds.findIdx? (fun s => eqIgnoreAsciiCase s.speaker.info.uuid uuid) with
  | none => none
  | some i =>
    match sds.get? i, sds.getLast? with
    | some sd, some last => some (sd, (sds.set i last).dropLast)
    | _, _ => none

/-- `Controller::update_avtransport_data`: store the status on the first record
with a matching uuid; a missing uuid is only logged. -/
def update_avtransport_data (st : Controller) (uuid : Uuid) (data : AVStatus) : Controller :=
  { st with
    speakerdata :=
      match updateFirstData uuid data st.speakerdata with
      | some sds => sds
      | none => st.speakerdata }
where
  /-- `iter_mut().find(..)` + `sd.transport_data = data`. -/
  updateFirstData (uuid : Uuid) (data : AVStatus) : List SpeakerData → Option (List SpeakerData)
    | [] => none
    | sd :: rest =>
      if eqIgnoreAsciiCase sd.speaker.info.uuid uuid then
        some ({ sd with transport_data := data } :: rest)
      else
        (updateFirstData uuid data rest).map (sd :: ·)

/-! ## Events and the dispatcher (controller.rs `handle_event` / `run`) -/

/-- `Event` (types.rs). -/
inductive Event where
  | TopoUpdate (uuid : Option Uuid) (topology : Topology)
  | AVTransUpdate (uuid : Option Uuid) (data : AVStatus)
  | SubscribeError (uuid : Option Uuid) (urn : URN)
  | NoOp
deriving DecidableEq, Repr

/-- Outcome of one `handle_event` call: the updated controller, a propagated
error (the `?`s in the `ZONE_GROUP_TOPOLOGY` branch), or a panic (`uuid.unwrap()`
on an untagged transport failure). -/
inductive HEOut where
  | ok (st : Controller)
  | err (e : MgrError)
  | panicked
deriving DecidableEq, Repr

/-- `Controller::get_a_service_and_url`: pick a uniformly random registered
speaker and return it with its service, or fail when none is registered or the
service is missing.  `fastrand::usize(..len)` is modelled by the environment's
index source reduced mod the length. -/
def get_a_service_and_url (env : Env) (st : Controller) (urn : URN) : Except MgrError Speaker :=
  match st.speakerdata with
  | [] => .error (.Sonor .NoSpeakersDetected)
  | sd0 :: _ =>
    let i := env.randIdx st.speakerdata.length % st.speakerdata.length
    let sp := (st.speakerdata.getD i sd0).speaker
    if env.findService sp urn then .ok sp
    else .error (.Sonor (.MissingServiceForUPnPAction urn))

/-- `Controller::handle_event`.  Logging is side-effect free and omitted, except
that the `debug!` in the `AV_TRANSPORT` arm of `SubscribeError` is preceded by
`uuid.unwrap()`, which panics on an untagged transport failure.  The partial
state kept by `unwrap_or_else(warn)` after a failed topology apply is modelled
by taking the first component of `update_from_topology`. -/
def handle_event (env : Env) (st : Controller) : Event → HEOut
  | .TopoUpdate _ topo => .ok (update_from_topology env st topo).1
  | .AVTransUpdate uuid data =>
    (match uuid with
     | some u => .ok (update_avtransport_data st u data)
     | none => .ok st)
  | .NoOp => .ok st
  | .SubscribeError uuid urn =>
    match urn with
    | .zoneGroupTopology =>
      -- the speaker we were getting updates from may have gone offline; try another
      (match get_a_service_and_url env st .zoneGroupTopology with
       | .error e => .err e
       | .ok sp =>
         -- `self.topology_subscription = Subscriber::new()` then subscribe
         match env.topoSubscribe sp with
         | some rx => .ok { st with queued_event_handles := st.queued_event_handles ++ [rx] }
         | none =>
           -- subscribe failed: attempt to rediscover the system; `?` propagates
           match discover_system env st with
           | .ok st' => .ok st'
           | .error e => .err e)
    | .avTransport =>
      (match uuid with
       | none => .panicked
       | some u =>
         match popByUuid st.speakerdata u with
         | none => .ok st
         | some (sd, rest) =>
           match env.fromSpeakerInfo sd.speaker.info with
           | .ok (some sp) =>
             -- the speaker still exists: refresh the subscription against the
             -- newly resolved device, then put the (old) record back
             (match env.avSubscribe sp with
              | some rx =>
                .ok { st with
                      speakerdata := rest ++ [{ sd with transport_subscription := some rx }],
                      queued_event_handles := st.queued_event_handles ++ [rx] }
              | none =>
                .ok { st with speakerdata := rest ++ [{ sd with transport_subscription := none }] })
           | _ =>
             -- resolution failed: the record is pushed back unchanged
             -- ("If speaker is gone, next topo update will clean it up")
             .ok { st with speakerdata := rest ++ [sd] })
    | .otherService _ => .ok st

/-- One ready arm of the `select!` in `Controller::run`: a command, the command
queue closing (`rx.recv() -> None`), an event, or the merged event stream
reporting no active subscriptions (`event_stream.next() -> None`). -/
inductive LoopMsg where
  | cmd
  | queueClosed
  | event (e : Event)
  | streamEmpty
deriving DecidableEq, Repr

/-- Transport `SubscribeError` events are produced by listener tasks that always
carry their owning uuid tag; this rules the untagged (panicking) case out. -/
def LoopMsg.wf : LoopMsg → Bool
  | .event (.SubscribeError none .avTransport) => false
  | _ => true

/-- How the run loop ends on a given interleaving of ready arms. -/
inductive RunOutcome where
  | closed (st : Controller)
  | failed (e : MgrError)
  | panicked
  | running (st : Controller)
deriving DecidableEq, Repr

/-- The `loop { select! { ... } }` body of `Controller::run`, applied to an
arbitrary interleaving of ready arms.  Queued receivers are drained into the
stream at the top of each iteration; commands are handled by `handle_zone_action`,
which never returns an error (every arm of `ZoneAction::handle_action` replies on
the channel and yields `Ok`); `handle_event` errors propagate through `?`. -/
def runLoop (env : Env) : Controller → List LoopMsg → RunOutcome
  | st, [] => .running { st with queued_event_handles := [] }
  | st, msg :: rest =>
    let st := { st with queued_event_handles := [] }
    match msg with
    | .queueClosed => .closed st
    | .cmd => runLoop env st rest
    | .streamEmpty => runLoop env st rest
    | .event e =>
      match handle_event env st e with
      | .ok st' => runLoop env st' rest
      | .err er => .failed er
      | .panicked => .panicked

/-- `Controller::run`: subscribe for topology updates on any device, then enter
the loop; a failure of either prologue step propagates before the loop starts. -/
def run (env : Env) (st : Controller) (msgs : List LoopMsg) : RunOutcome :=
  match get_a_service_and_url env st .zoneGroupTopology with
  | .error e => .failed e
  | .ok sp =>
    match env.topoSubscribe sp with
    | none => .failed .SubscriberError
    | some _ => runLoop env st msgs

/-! ## Media sources (mediasource.rs, metadata.rs) -/

/-- `MediaSource` (mediasource.rs). -/
inductive MediaSource where
  | Apple (item : String)
  | Spotify (item : String)
  | SonosPlaylist (item : String)
  | SonosFavorite (item : String)
deriving DecidableEq, Repr

/-- Rust `str::split_once(':')`. -/
def splitOnceColon (s : String) : Option (String × String) :=
  (go s.data).map (fun p => (⟨p.1⟩, ⟨p.2⟩))
where
  go : List Char → Option (List Char × List Char)
    | [] => none
    | c :: cs =>
      if c = ':' then some ([], cs)
      else (go cs).map (fun p => (c :: p.1, p.2))

/-- `get_metadata` (metadata.rs): the DIDL-Lite item template, escaped. -/
def get_metadata (env : Env) (id parent_id upnp_class cdudn : String) : String :=
  env.escapePcdata
    ("<DIDL-Lite xmlns:dc=\"http://purl.org/dc/elements/1.1/\" xmlns:upnp=\"urn:schemas-upnp-org:metadata-1-0/upnp/\" xmlns:r=\"urn:schemas-rinconnetworks-com:metadata-1-0/\" xmlns=\"urn:schemas-upnp-org:metadata-1-0/DIDL-Lite/\"><item id=\""
      ++ id ++ "\" restricted=\"true\" parentID=\"" ++ parent_id
      ++ "\"><dc:title></dc:title><upnp:class>" ++ upnp_class
      ++ "</upnp:class><desc id=\"cdudn\" nameSpace=\"urn:schemas-rinconnetworks-com:metadata-1-0/\">"
      ++ cdudn ++ "</desc></item></DIDL-Lite>")

/-- `spotify_uri_and_metadata` (metadata.rs). -/
def spotify_uri_and_metadata (env : Env) (item : String) : Option (String × String) :=
  match splitOnceColon item with
  | none => none
  | some (kind, _id) =>
    let item := env.encode item
    let cdudn := "SA_RINCON2311_X_#Svc2311-0-Token"
    if kind = "album" then
      some ("x-rincon-cpcontainer:1004206c" ++ item ++ "?sid=9&flags=8300&sn=7",
            get_metadata env ("0004206c" ++ item) "" "object.container.album.musicAlbum" cdudn)
    else if kind = "track" then
      some ("x-sonos-http:" ++ item ++ "?sid=9&flags=8300&sn=7",
            get_metadata env ("00032020" ++ item) "" "object.item.audioItem.musicTrack" cdudn)
    else if kind = "playlist" then
      some ("x-rincon-cpcontainer:1006206" ++ item ++ "??sid=9&flags=8300&sn=7",
            get_metadata env ("10062a6c" ++ item) "10fe2664playlists"
              "object.container.playlistContainer" cdudn)
    else none

/-- `apple_uri_and_metadata` (metadata.rs). -/
def apple_uri_and_metadata (env : Env) (item : String) : Option (String × String) :=
  match splitOnceColon item with
  | none => none
  | some (kind0, id) =>
    let kind := if kind0 = "track" then "song" else kind0
    let item := env.encode (kind ++ ":" ++ id)
    let cdudn := "SA_RINCON52231_X_#Svc52231-0-Token"
    if kind = "album" ∨ kind = "libraryalbum" then
      some ("x-rincon-cpcontainer:0004206c" ++ item ++ "?sid=204",
            get_metadata env ("0004206c" ++ item) "00020000album%3A"
              "object.item.audioItem.musicAlbum" cdudn)
    else if kind = "song" ∨ kind = "librarytrack" then
      some ("x-sonos-http:" ++ item ++ ".mp4?sid=204",
            get_metadata env ("10032020" ++ item) "1004206calbum%3A"
              "object.item.audioItem.musicTrack" cdudn)
    else if kind = "playlist" ∨ kind = "libraryplaylist" then
      some ("x-rincon-cpcontainer:1006206c" ++ item ++ "?sid=204",
            get_metadata env ("1006206c" ++ item) "00020000playlist%3A"
              "object.container.playlistContainer" cdudn)
    else none

/-- `MediaSource::get_uri_and_metadata`: resolve the media reference, returning
the resolution result and the remote calls (browsing on the given speaker) it
performed. -/
def get_uri_and_metadata (env : Env) (m : MediaSource) (sp : Speaker) :
    Option (String × String) × List RemoteCall :=
  match m with
  | .Apple item => (apple_uri_and_metadata env item, [])
  | .Spotify item => (spotify_uri_and_metadata env item, [])
  | .SonosPlaylist item =>
    (match env.browse sp "SQ:" with
     | .error _ => (none, [.browse "SQ:"])
     | .ok playlists =>
       match playlists.find? (fun p => eqIgnoreAsciiCase p.title item) with
       | none => (none, [.browse "SQ:"])
       | some playlist =>
         match playlist.uri with
         | none => (none, [.browse "SQ:"])
         | some u => (some (u, ""), [.browse "SQ:"]))
  | .SonosFavorite item =>
    (match env.browse sp "FV:2" with
     | .error _ => (none, [.browse "FV:2"])
     | .ok favorites =>
       match favorites.find? (fun f => eqIgnoreAsciiCase f.title item) with
       | none => (none, [.browse "FV:2"])
       | some favorite =>
         match favorite.uri, favorite.metadata with
         | some u, some md => (some (u, env.escapePcdata md), [.browse "FV:2"])
         | _, _ => (none, [.browse "FV:2"]))

/-- Rust `str::parse::<u32>()`: an optional leading `+`, then at least one
decimal digit, value below 2^32. -/
def parseU32 (s : String) : Option Nat :=
  let ds := match s.data with
            | '+' :: rest => rest
            | l => l
  if ds.isEmpty then none
  else if ds.all (fun c => '0' ≤ c ∧ c ≤ '9') then
    let n := ds.foldl (fun acc c => acc * 10 + (c.toNat - 48)) 0
    if n < 4294967296 then some n else none
  else none

/-- Run a list of unit-returning transport calls in order, stopping at the first
error; the returned trace contains every call that was issued. -/
def runCalls (env : Env) (sp : Speaker) : List RemoteCall → Except MgrError Unit × List RemoteCall
  | [] => (.ok (), [])
  | c :: cs =>
    match env.transportCall sp c with
    | .error e => (.error (.Sonor e), [c])
    | .ok _ =>
      let (r, tr) := runCalls env sp cs
      (r, c :: tr)

/-- The tail of `MediaSource::queue_as_next` after the current track number is
known: resolve the media (or fail with `ContentNotFound`) and enqueue it at
`cur_track_no + 1`. -/
def queue_next_with (env : Env) (m : MediaSource) (cd : SpeakerData) (n : Nat)
    (tr : List RemoteCall) : Except MgrError Unit × List RemoteCall :=
  match get_uri_and_metadata env m cd.speaker with
  | (none, calls) => (.error .ContentNotFound, tr ++ calls)
  | (some (uri, md), calls) =>
    match env.transportCall cd.speaker (.queueNext uri md (some (n + 1))) with
    | .ok _ => (.ok (), tr ++ calls ++ [.queueNext uri md (some (n + 1))])
    | .error e => (.error (.Sonor e), tr ++ calls ++ [.queueNext uri md (some (n + 1))])

/-- `MediaSource::queue_as_next`.  The source looks the current track number up
with `transport_data.iter().find_map(|(k, v)| {k.eq_ignore_ascii_case("CurrentTrack"); Some(v)})`:
the comparison is a discarded statement (note the `;`), so the closure returns
`Some(v)` for every entry and `find_map` yields the first cached value, whatever
its key; the live query runs only when the cache is entirely empty. -/
def queue_as_next (env : Env) (m : MediaSource) (cd : SpeakerData) :
    Except MgrError Unit × List RemoteCall :=
  match cd.transport_data.findSome? (fun kv => some kv.2) with
  | some v =>
    (match parseU32 v with
     | none => (.error .ContentNotFound, [])
     | some n => queue_next_with env m cd n [])
  | none =>
    match env.trackQuery cd.speaker with
    | .error e => (.error (.Sonor e), [.trackQuery])
    | .ok t => queue_next_with env m cd (t.getD 0) [.trackQuery]

/-- `MediaSource::play_now`: resolve first, then clear the queue, enqueue at
position 0, switch to queue mode (`x-rincon-queue:<uuid>#0`) and play. -/
def play_now (env : Env) (m : MediaSource) (cd : SpeakerData) :
    Except MgrError Unit × List RemoteCall :=
  match get_uri_and_metadata env m cd.speaker with
  | (none, calls) => (.error .ContentNotFound, calls)
  | (some (uri, md), calls) =>
    let (r, tr) := runCalls env cd.speaker
      [.clearQueue, .queueNext uri md (some 0),
       .setTransportUri ("x-rincon-queue:" ++ cd.speaker.info.uuid ++ "#0") "", .play]
    (r, calls ++ tr)

/-! ## Zone actions (zoneaction.rs) -/

/-- `RepeatMode` (datatypes.rs). -/
inductive RepeatMode where
  | noRepeat
  | one
  | all
deriving DecidableEq, Repr

/-- A playback snapshot; its contents belong to the external Snapshot codec and
are elided. -/
structure Snapshot where
deriving DecidableEq, Repr

/-- `ZoneAction` (zoneaction.rs). -/
inductive ZoneAction where
  | Exists
  | PlayNow (m : MediaSource)
  | QueueAsNext (m : MediaSource)
  | Play
  | Pause
  | PlayPause
  | NextTrack
  | PreviousTrack
  | SeekTime (seconds : Nat)
  | SeekTrack (number : Nat)
  | SeekRelTrack (number : Int)
  | SetRepeat (mode : RepeatMode)
  | SetShuffle (state : Bool)
  | SetCrossfade (state : Bool)
  | SetPlayMode (mode : RepeatMode) (state : Bool)
  | ClearQueue
  | GetQueue
  | TakeSnapshot
  | ApplySnapshot (s : Snapshot)
deriving DecidableEq, Repr

/-- `Response` (types.rs, as used by zoneaction.rs); payloads of `Snapshot` and
`Queue` belong to external collaborators and are elided. -/
inductive Response where
  | Ok
  | NotOk
  | SnapshotVal
  | QueueVal
deriving DecidableEq, Repr

/-- The largest `i32` value, 2^31 - 1. -/
def i32max : Int := 2147483647

/-- Two's-complement wrap-around of 32-bit signed addition (release-profile Rust
semantics for `i32` overflow); the offsets are 2^31 and 2^32. -/
def wrap32 (x : Int) : Int :=
  (x + 2147483648) % 4294967296 - 2147483648

/-- Modelled from the spec: `SpeakerData::get_current_track_no` is called at
zoneaction.rs line 182 but its definition is missing from the source tree.
Per §4.4 of the spec: "first read the current track number (from cached status
if present, else query live)".  Reads the cached `CurrentTrack` field when one
is present, otherwise queries the device; returns the track number and the
remote calls performed. -/
def SpeakerData.get_current_track_no (env : Env) (sd : SpeakerData) :
    Except MgrError Nat × List RemoteCall :=
  match sd.transport_data.findSome?
      (fun kv => if eqIgnoreAsciiCase kv.1 "CurrentTrack" then some kv.2 else none) with
  | some v =>
    (match parseU32 v with
     | some n => (.ok n, [])
     | none => (.error .ZoneActionError, []))
  | none =>
    match env.trackQuery sd.speaker with
    | .ok t => (.ok (t.getD 0), [.trackQuery])
    | .error e => (.error (.Sonor e), [.trackQuery])

/-- `<i32 as ZoneActionSignedNExt>::seek_rel_track` (zoneaction.rs): read the
current track number (`try_into::<i32>()` failing with `ZoneActionError`), add
the signed delta, and seek to track 1 when the target is below 1, otherwise to
the target. -/
def seek_rel_track (env : Env) (delta : Int) (sd : SpeakerData) :
    Except MgrError Unit × List RemoteCall :=
  match SpeakerData.get_current_track_no env sd with
  | (.error e, tr) => (.error e, tr)
  | (.ok n, tr) =>
    if (n : Int) > i32max then (.error .ZoneActionError, tr)
    else
      let target := wrap32 ((n : Int) + delta)
      if target < 1 then
        (match env.transportCall sd.speaker (.seekTrack 1) with
         | .ok _ => (.ok (), tr ++ [.seekTrack 1])
         | .error e => (.error (.Sonor e), tr ++ [.seekTrack 1]))
      else
        match env.transportCall sd.speaker (.seekTrack target.toNat) with
        | .ok _ => (.ok (), tr ++ [.seekTrack target.toNat])
        | .error e => (.error (.Sonor e), tr ++ [.seekTrack target.toNat])

/-- The `action!` macro pattern for actions that need the coordinator's
`SpeakerData`: resolve the coordinator for the zone name, run the body, send
`Ok` on success and `NotOk` on resolution or remote failure. -/
def withCoordinatorData (st : Controller) (name : String)
    (f : SpeakerData → Except MgrError Unit × List RemoteCall) : Response × List RemoteCall :=
  match get_coordinatordata_for_name st name with
  | some cd =>
    (match f cd with
     | (.ok _, tr) => (.Ok, tr)
     | (.error _, tr) => (.NotOk, tr))
  | none => (.NotOk, [])

/-- The `action!` macro pattern for coordinator methods with elided payloads,
identified by their UPnP action name. -/
def simple_action (env : Env) (st : Controller) (name : String) (a : String)
    (okResponse : Response) : Response × List RemoteCall :=
  match get_coordinator_for_name st name with
  | some c =>
    (match env.transportCall c (.upnp a) with
     | .ok _ => (okResponse, [.upnp a])
     | .error _ => (.NotOk, [.upnp a]))
  | none => (.NotOk, [])

/-- `ZoneAction::handle_action`: the response written to the caller's reply
channel, together with the remote calls issued on the coordinator. -/
def handle_action (env : Env) (st : Controller) (name : String) :
    ZoneAction → Response × List RemoteCall
  | .PlayNow m => withCoordinatorData st name (fun cd => play_now env m cd)
  | .QueueAsNext m => withCoordinatorData st name (fun cd => queue_as_next env m cd)
  | .Play => simple_action env st name "Play" .Ok
  | .Pause => simple_action env st name "Pause" .Ok
  | .PlayPause => simple_action env st name "PlayPause" .Ok
  | .NextTrack => simple_action env st name "Next" .Ok
  | .PreviousTrack => simple_action env st name "Previous" .Ok
  | .SeekTime _ => simple_action env st name "SeekTime" .Ok
  | .SeekTrack _ => simple_action env st name "SeekTrack" .Ok
  | .SeekRelTrack k => withCoordinatorData st name (fun cd => seek_rel_track env k cd)
  | .SetRepeat _ => simple_action env st name "SetRepeat" .Ok
  | .SetShuffle _ => simple_action env st name "SetShuffle" .Ok
  | .SetCrossfade _ => simple_action env st name "SetCrossfadeMode" .Ok
  | .SetPlayMode _ _ => simple_action env st name "SetPlayMode" .Ok
  | .ClearQueue => simple_action env st name "RemoveAllTracksFromQueue" .Ok
  | .GetQueue => simple_action env st name "GetQueue" .QueueVal
  | .TakeSnapshot => simple_action env st name "Snapshot" .SnapshotVal
  | .ApplySnapshot _ => simple_action env st name "ApplySnapshot" .Ok
  | .Exists =>
    -- membership check by display name only, and with `==`, not
    -- `eq_ignore_ascii_case`: `s.speaker.info.name == name`
    (if st.speakerdata.any (fun s => s.speaker.info.name == name) then (.Ok, [])
     else (.NotOk, []))

/-! ## Concrete fixtures used by witnesses and counterexamples -/

/-- A speaker whose device URL is its descriptor location. -/
def mkSpeaker (name uuid loc : String) : Speaker :=
  { info := { name := name, uuid := uuid, location := loc }, deviceUrl := loc }

/-- A registered record without subscription or cached status. -/
def mkRecord (name uuid loc : String) : SpeakerData :=
  { speaker := mkSpeaker name uuid loc, transport_subscription := none, transport_data := [] }

/-- A benign environment: descriptor resolution echoes the descriptor, every
service exists, subscriptions succeed, remote calls succeed, discovery fails. -/
def baseEnv : Env where
  fromSpeakerInfo := fun info => .ok (some { info := info, deviceUrl := info.location })
  avSubscribe := fun _ => none
  findService := fun _ _ => true
  topoSubscribe := fun _ => some 0
  randIdx := fun _ => 0
  discover := .error .NoSpeakersDetected
  trackQuery := fun _ => .ok none
  transportCall := fun _ _ => .ok ()
  queryCall := fun _ _ => .ok ()
  browse := fun _ _ => .ok []
  encode := fun s => s
  escapePcdata := fun s => s

/-- A controller with no registered devices. -/
def emptyController : Controller :=
  { speakerdata := [], topology := [], queued_event_handles := [] }

/-- Registry {Kitchen=U1 (coordinator), Den=U2} with the group {U1 → [U1, U2]}. -/
def twoZoneController : Controller :=
  { speakerdata := [mkRecord "Kitchen" "U1" "http://a", mkRecord "Den" "U2" "http://b"],
    topology := [("U1", ["U1", "U2"])],
    queued_event_handles := [] }

/-- A registry holding one stale record (uuid OLD, about to disappear). -/
def staleController : Controller :=
  { speakerdata := [mkRecord "Attic" "OLD" "http://old"],
    topology := [("OLD", ["OLD"])],
    queued_event_handles := [] }

/-- Snapshot T2 with group U1 → {Kitchen=U1, Den=U2}; OLD is gone. -/
def snapshotT2 : Topology :=
  [("U1", [{ name := "Kitchen", uuid := "U1", location := "http://a" },
           { name := "Den", uuid := "U2", location := "http://b" }])]

/-- A snapshot whose coordinator uuid GHOST is not listed as a member of any group. -/
def coordOnlySnapshot : Topology :=
  [("GHOST", [{ name := "Den", uuid := "U2", location := "http://b" }])]

/-- Environment whose descriptor resolution always fails with a network error. -/
def unreachableEnv : Env :=
  { baseEnv with fromSpeakerInfo := fun _ => .error .UPnPError }

/-- Environment where rediscovery would succeed and rebuild the registry. -/
def rediscoverableEnv : Env :=
  { baseEnv with discover := .ok snapshotT2 }

/-- Environment reporting current track 3 on a live query. -/
def track3Env : Env :=
  { baseEnv with trackQuery := fun _ => .ok (some 3) }

/-- Environment where topology resubscription always fails but rediscovery
would succeed. -/
def noTopoSubEnv : Env :=
  { baseEnv with topoSubscribe := fun _ => none, discover := .ok snapshotT2 }

/-- The Kitchen coordinator record with a cached transport status whose first
field is not `CurrentTrack` (failing input for the cached-track read). -/
def staleCacheRecord : SpeakerData :=
  { speaker := mkSpeaker "Kitchen" "U1" "http://a",
    transport_subscription := none,
    transport_data := [("CurrentPlayMode", "NORMAL"), ("CurrentTrack", "7")] }

/-- The Kitchen coordinator record whose cache holds `CurrentTrack = 1`. -/
def trackOneRecord : SpeakerData :=
  { speaker := mkSpeaker "Kitchen" "U1" "http://a",
    transport_subscription := none,
    transport_data := [("CurrentTrack", "1")] }

/-! ## Derived predicates used in theorem statements -/

/-- Some registered record's uuid matches `u` ASCII-case-insensitively. -/
def registeredCI (st : Controller) (u : String) : Bool :=
  st.speakerdata.any (fun sd => eqIgnoreAsciiCase sd.speaker.info.uuid u)

/-- The registry holds exactly the uuids of a snapshot: every member info has a
matching record and every record matches some member info. -/
def registryMatchesSnapshot (st : Controller) (t : Topology) : Bool :=
  (topoInfos t).all (fun info => registeredCI st info.uuid) &&
    st.speakerdata.all (fun sd =>
      (topoInfos t).any (fun info => eqIgnoreAsciiCase sd.speaker.info.uuid info.uuid))

/-- Every member uuid of the stored coordinator→members mapping has a matching
record. -/
def topologyMembersCovered (st : Controller) : Bool :=
  st.topology.all (fun p => p.2.all (fun u => registeredCI st u))

/-- The device found at a descriptor's location answers with the descriptor's
uuid: the well-behavedness of `Speaker::from_speaker_info` that the controller
relies on when it indexes new records by snapshot uuid. -/
def EnvResolvesFaithfully (env : Env) : Prop :=
  ∀ info sp, env.fromSpeakerInfo info = .ok (some sp) →
    eqIgnoreAsciiCase sp.info.uuid info.uuid = true

/-- Recognizes the queue-closed arm of the select loop. -/
def isQueueClosedMsg : LoopMsg → Bool
  | .queueClosed => true
  | _ => false

/-- Recognizes a topology-subscription-failure event arm. -/
def isTopoFailureMsg : LoopMsg → Bool
  | .event (.SubscribeError _ .zoneGroupTopology) => true
  | _ => false

/-- The registry state right after applying `snapshotT2` to `staleController`. -/
def t2Applied : Controller :=
  (update_from_topology baseEnv staleController snapshotT2).1

/-! # Theorems -/

/-! ## ASCII-case-insensitive equality is an equivalence -/

theorem eqIgnoreAsciiCase_iff {a b : String} :
    eqIgnoreAsciiCase a b = true ↔ ciKey a = ciKey b := by
  simp [eqIgnoreAsciiCase, ciKey]

theorem eqIgnoreAsciiCase_refl (s : String) : eqIgnoreAsciiCase s s = true := by
  simp [eqIgnoreAsciiCase]

/-! ## Lemmas about `updateFirst` and `applyInfos` (the topology-apply loop) -/

theorem updateFirst_provenance {info : SpeakerInfo} :
    ∀ {sds sds' : List SpeakerData}, updateFirst info sds = some sds' →
      ∀ x ∈ sds', x ∈ sds ∨ x.speaker.info = info := by
  intro sds
  induction sds with
  | nil => intro sds' h; simp [updateFirst] at h
  | cons sd rest ih =>
    intro sds' h x hx
    rw [updateFirst] at h
    by_cases hc : eqIgnoreAsciiCase sd.speaker.info.uuid info.uuid = true
    · rw [if_pos hc] at h
      cases h
      rcases List.mem_cons.mp hx with h1 | h1
      · right; rw [h1]
      · left; exact List.mem_cons_of_mem _ h1
    · rw [if_neg hc] at h
      rcases Option.map_eq_some'.mp h with ⟨tl, htl, rfl⟩
      rcases List.mem_cons.mp hx with h1 | h1
      · left; rw [h1]; exact List.mem_cons_self _ _
      · rcases ih htl x h1 with h2 | h2
        · left; exact List.mem_cons_of_mem _ h2
        · right; exact h2

theorem updateFirst_registers {info : SpeakerInfo} :
    ∀ {sds sds' : List SpeakerData}, updateFirst info sds = some sds' →
      ∃ x ∈ sds', ciKey x.speaker.info.uuid = ciKey info.uuid := by
  intro sds
  induction sds with
  | nil => intro sds' h; simp [updateFirst] at h
  | cons sd rest ih =>
    intro sds' h
    rw [updateFirst] at h
    by_cases hc : eqIgnoreAsciiCase sd.speaker.info.uuid info.uuid = true
    · rw [if_pos hc] at h
      cases h
      exact ⟨_, List.mem_cons_self _ _, rfl⟩
    · rw [if_neg hc] at h
      rcases Option.map_eq_some'.mp h with ⟨tl, htl, rfl⟩
      rcases ih htl with ⟨x, hx, hk⟩
      exact ⟨x, List.mem_cons_of_mem _ hx, hk⟩

theorem updateFirst_preserves {info : SpeakerInfo} {k : List Char} :
    ∀ {sds sds' : List SpeakerData}, updateFirst info sds = some sds' →
      (∃ x ∈ sds, ciKey x.speaker.info.uuid = k) →
      ∃ x ∈ sds', ciKey x.speaker.info.uuid = k := by
  intro sds
  induction sds with
  | nil => intro sds' h; simp [updateFirst] at h
  | cons sd rest ih =>
    intro sds' h hreg
    rw [updateFirst] at h
    by_cases hc : eqIgnoreAsciiCase sd.speaker.info.uuid info.uuid = true
    · rw [if_pos hc] at h
      cases h
      rcases hreg with ⟨x, hx, hk⟩
      rcases List.mem_cons.mp hx with h1 | h1
      · refine ⟨_, List.mem_cons_self _ _, ?_⟩
        have := eqIgnoreAsciiCase_iff.mp hc
        simp only []
        rw [← this, ← h1, hk]
      · exact ⟨x, List.mem_cons_of_mem _ h1, hk⟩
    · rw [if_neg hc] at h
      rcases Option.map_eq_some'.mp h with ⟨tl, htl, rfl⟩
      rcases hreg with ⟨x, hx, hk⟩
      rcases List.mem_cons.mp hx with h1 | h1
      · exact ⟨_, List.mem_cons_self _ _, h1 ▸ hk⟩
      · rcases ih htl ⟨x, h1, hk⟩ with ⟨y, hy, hky⟩
        exact ⟨y, List.mem_cons_of_mem _ hy, hky⟩

theorem applyInfos_preserves {env : Env} {k : List Char} :
    ∀ {l : List SpeakerInfo} {st st' : Controller} {e : Option SonorError},
      applyInfos env st l = (st', e) →
      (∃ x ∈ st.speakerdata, ciKey x.speaker.info.uuid = k) →
      ∃ x ∈ st'.speakerdata, ciKey x.speaker.info.uuid = k := by
  intro l
  induction l with
  | nil => intro st st' e h hreg; rw [applyInfos] at h; cases h; exact hreg
  | cons info rest ih =>
    intro st st' e h hreg
    rw [applyInfos] at h
    split at h
    · next sds hu => exact ih h (updateFirst_preserves hu hreg)
    · next hu =>
      split at h
      · cases h; exact hreg
      · cases h; exact hreg
      · next sp hf =>
        split at h
        all_goals {
          refine ih h ?_
          rcases hreg with ⟨x, hx, hk⟩
          exact ⟨x, List.mem_append.mpr (Or.inl hx), hk⟩
        }

theorem applyInfos_registers {env : Env}
    (henv : EnvResolvesFaithfully env) :
    ∀ {l : List SpeakerInfo} {st st' : Controller},
      applyInfos env st l = (st', none) →
      ∀ info ∈ l, ∃ x ∈ st'.speakerdata, ciKey x.speaker.info.uuid = ciKey info.uuid := by
  intro l
  induction l with
  | nil => intro st st' _ info h; simp at h
  | cons info0 rest ih =>
    intro st st' h info hmem
    rw [applyInfos] at h
    split at h
    · next sds hu =>
      rcases List.mem_cons.mp hmem with rfl | hmem'
      · exact applyInfos_preserves h (updateFirst_registers hu)
      · exact ih h info hmem'
    · next hu =>
      split at h
      · cases h
      · cases h
      · next sp hf =>
        have hkey : ciKey sp.info.uuid = ciKey info0.uuid :=
          eqIgnoreAsciiCase_iff.mp (henv info0 sp hf)
        rcases List.mem_cons.mp hmem with rfl | hmem'
        · split at h
          all_goals {
            refine applyInfos_preserves h ⟨_, List.mem_append.mpr (Or.inr (List.mem_singleton.mpr rfl)), ?_⟩
            exact hkey
          }
        · split at h
          all_goals exact ih h info hmem'

theorem applyInfos_provenance {env : Env} :
    ∀ {l : List SpeakerInfo} {st st' : Controller} {e : Option SonorError},
      applyInfos env st l = (st', e) →
      EnvResolvesFaithfully env →
      ∀ x ∈ st'.speakerdata,
        (∃ y ∈ st.speakerdata, ciKey x.speaker.info.uuid = ciKey y.speaker.info.uuid) ∨
        (∃ info ∈ l, ciKey x.speaker.info.uuid = ciKey info.uuid) := by
  intro l
  induction l with
  | nil =>
    intro st st' e h henv x hx
    rw [applyInfos] at h; cases h
    exact Or.inl ⟨x, hx, rfl⟩
  | cons info rest ih =>
    intro st st' e h henv x hx
    rw [applyInfos] at h
    split at h
    · next sds hu =>
      rcases ih h henv x hx with ⟨y, hy, hk⟩ | ⟨info', hi, hk⟩
      · rcases updateFirst_provenance hu y hy with hy1 | hy1
        · exact Or.inl ⟨y, hy1, hk⟩
        · refine Or.inr ⟨info, List.mem_cons_self _ _, ?_⟩
          rw [hy1] at hk
          exact hk
      · exact Or.inr ⟨info', List.mem_cons_of_mem _ hi, hk⟩
    · next hu =>
      split at h
      · cases h
        exact Or.inl ⟨x, hx, rfl⟩
      · cases h
        exact Or.inl ⟨x, hx, rfl⟩
      · next sp hf =>
        have hkey : ciKey sp.info.uuid = ciKey info.uuid :=
          eqIgnoreAsciiCase_iff.mp (henv info sp hf)
        split at h
        all_goals {
          rcases ih h henv x hx with ⟨y, hy, hk⟩ | ⟨info', hi, hk⟩
          · rcases List.mem_append.mp hy with hy1 | hy2
            · exact Or.inl ⟨y, hy1, hk⟩
            · refine Or.inr ⟨info, List.mem_cons_self _ _, ?_⟩
              simp at hy2
              rw [hy2] at hk
              exact hk.trans hkey
          · exact Or.inr ⟨info', List.mem_cons_of_mem _ hi, hk⟩
        }

/-- Membership in the retained registry implies a matching incoming member. -/
theorem retainKnown_mem {infos : List SpeakerInfo} {sds : List SpeakerData}
    {sd : SpeakerData} (h : sd ∈ retainKnown infos sds) :
    ∃ info ∈ infos, ciKey info.uuid = ciKey sd.speaker.info.uuid := by
  rcases List.mem_filter.mp h with ⟨-, hpred⟩
  rcases List.any_eq_true.mp hpred with ⟨info, hinfo, heq⟩
  exact ⟨info, hinfo, eqIgnoreAsciiCase_iff.mp heq⟩

/-- `baseEnv`'s resolver echoes the descriptor, hence reports its uuid. -/
theorem baseEnv_resolves_faithfully : EnvResolvesFaithfully baseEnv := by
  intro info sp h
  simp only [baseEnv] at h
  cases h
  exact eqIgnoreAsciiCase_refl _

/-! ## C2 -/

/-- C2: for every topology snapshot accepted by the store, immediately after
`update_from_topology` completes successfully on snapshot T2 the registry
contains exactly the uuids listed in T2 — every member uuid of T2 has a record
and no record with a uuid absent from T2 remains (uuid comparison is the code's
ASCII-case-insensitive one, and device resolution is assumed to return a speaker
reporting the descriptor's uuid). -/
theorem registry_matches_topology_after_apply
    (env : Env) (st st' : Controller) (t : Topology)
    (henv : EnvResolvesFaithfully env)
    (h : update_from_topology env st t = (st', none)) :
    registryMatchesSnapshot st' t = true := by
  rw [update_from_topology] at h
  split at h
  · next st2 happ =>
    cases h
    rw [registryMatchesSnapshot, Bool.and_eq_true]
    constructor
    · rw [List.all_eq_true]
      intro info hinfo
      rcases applyInfos_registers henv happ info hinfo with ⟨x, hx, hk⟩
      rw [registeredCI, List.any_eq_true]
      exact ⟨x, hx, eqIgnoreAsciiCase_iff.mpr hk⟩
    · rw [List.all_eq_true]
      intro sd hsd
      rw [List.any_eq_true]
      rcases applyInfos_provenance happ henv sd hsd with ⟨y, hy, hk⟩ | ⟨info, hi, hk⟩
      · rcases retainKnown_mem hy with ⟨info, hi, hik⟩
        exact ⟨info, hi, eqIgnoreAsciiCase_iff.mpr (hk.trans hik.symm)⟩
      · exact ⟨info, hi, eqIgnoreAsciiCase_iff.mpr hk⟩
  · next st2 e happ => cases h

/-- C2 witness: applying `snapshotT2` over a stale registry yields a registry
matching the snapshot exactly. -/
theorem registry_matches_topology_after_apply_witness :
    registryMatchesSnapshot t2Applied snapshotT2 = true :=
  registry_matches_topology_after_apply baseEnv staleController t2Applied snapshotT2
    baseEnv_resolves_faithfully (by decide)

/-! ## C3 -/

/-- Every member uuid of the rebuilt mapping stems from some incoming member info. -/
theorem reduceTopology_member {t : Topology} {p : Uuid × List Uuid} {u : Uuid}
    (hp : p ∈ reduceTopology t) (hu : u ∈ p.2) :
    ∃ info ∈ topoInfos t, info.uuid = u := by
  rcases List.mem_map.mp hp with ⟨q, hq, rfl⟩
  rcases List.mem_map.mp hu with ⟨info, hinfo, rfl⟩
  refine ⟨info, ?_, rfl⟩
  rw [topoInfos, List.mem_flatten]
  exact ⟨q.2, List.mem_map.mpr ⟨q, hq, rfl⟩, hinfo⟩

/-- C3 counterexample: a snapshot can name a coordinator uuid (GHOST) that is a
member of no group; after a successful apply the stored Topology names GHOST as
coordinator while no DeviceRecord with that uuid exists — so not every
coordinator-or-member uuid of the stored Topology has a record. -/
theorem coordinator_uuid_can_lack_record :
    (update_from_topology baseEnv emptyController coordOnlySnapshot).2 = none ∧
    (update_from_topology baseEnv emptyController coordOnlySnapshot).1.topology
      = [("GHOST", ["U2"])] ∧
    registeredCI (update_from_topology baseEnv emptyController coordOnlySnapshot).1 "GHOST"
      = false := by
  decide

/-- C3 amended: after every successful topology apply, every *member* uuid
present in the stored Topology mapping has a corresponding DeviceRecord;
coordinator uuids are covered only insofar as they are also listed as members
(the registry is built from member infos alone). -/
theorem topology_member_uuids_have_records
    (env : Env) (st st' : Controller) (t : Topology)
    (henv : EnvResolvesFaithfully env)
    (h : update_from_topology env st t = (st', none)) :
    topologyMembersCovered st' = true := by
  rw [update_from_topology] at h
  split at h
  · next st2 happ =>
    cases h
    rw [topologyMembersCovered, List.all_eq_true]
    intro p hp
    rw [List.all_eq_true]
    intro u hu
    rcases reduceTopology_member hp hu with ⟨info, hinfo, rfl⟩
    rcases applyInfos_registers henv happ info hinfo with ⟨x, hx, hk⟩
    rw [registeredCI, List.any_eq_true]
    exact ⟨x, hx, eqIgnoreAsciiCase_iff.mpr hk⟩
  · next st2 e happ => cases h

/-- C3 witness: the stored mapping after applying `snapshotT2` only names
member uuids backed by records. -/
theorem topology_member_uuids_have_records_witness :
    topologyMembersCovered t2Applied = true :=
  topology_member_uuids_have_records baseEnv staleController t2Applied snapshotT2
    baseEnv_resolves_faithfully (by decide)

/-! ## C1 -/

/-- `handle_event` panics only on an untagged transport-subscription failure. -/
theorem handle_event_no_panic {env : Env} {st : Controller} {e : Event}
    (hwf : LoopMsg.wf (.event e) = true) :
    handle_event env st e ≠ .panicked := by
  intro h
  cases e with
  | TopoUpdate u topo => rw [handle_event] at h; cases h
  | NoOp => rw [handle_event] at h; cases h
  | AVTransUpdate uuid data =>
    rcases uuid with _ | u <;> (rw [handle_event] at h; cases h)
  | SubscribeError uuid urn =>
    cases urn with
    | zoneGroupTopology =>
      rw [handle_event] at h
      split at h
      · cases h
      · split at h
        · cases h
        · split at h <;> cases h
    | avTransport =>
      rcases uuid with _ | u
      · simp [LoopMsg.wf] at hwf
      · rw [handle_event] at h
        split at h
        · cases h
        · split at h
          · split at h <;> cases h
          · cases h
    | otherService s => rw [handle_event] at h; cases h

/-- `handle_event` returns an error only while handling a subscription failure
of the topology service. -/
theorem handle_event_err_topo {env : Env} {st : Controller} {e : Event} {er : MgrError}
    (h : handle_event env st e = .err er) :
    ∃ u, e = .SubscribeError u .zoneGroupTopology := by
  cases e with
  | TopoUpdate u topo => rw [handle_event] at h; cases h
  | NoOp => rw [handle_event] at h; cases h
  | AVTransUpdate uuid data =>
    rcases uuid with _ | u <;> (rw [handle_event] at h; cases h)
  | SubscribeError uuid urn =>
    cases urn with
    | zoneGroupTopology => exact ⟨uuid, rfl⟩
    | avTransport =>
      rcases uuid with _ | u
      · rw [handle_event] at h; cases h
      · rw [handle_event] at h
        split at h
        · cases h
        · split at h
          · split at h <;> cases h
          · cases h
    | otherService s => rw [handle_event] at h; cases h

/-- C1 counterexample: the loop can return without the Command queue ever
closing — one topology-subscription-failure event with an empty registry makes
`handle_event` fail with `NoSpeakersDetected`, which the `?` in the loop body
propagates out of `run`. -/
theorem runLoop_aborts_without_queue_close :
    runLoop baseEnv emptyController [LoopMsg.event (Event.SubscribeError none URN.zoneGroupTopology)]
      = RunOutcome.failed (MgrError.Sonor SonorError.NoSpeakersDetected) ∧
    [LoopMsg.event (Event.SubscribeError none URN.zoneGroupTopology)].any isQueueClosedMsg
      = false := by
  decide

/-- C1 amended: the loop returns *cleanly* only when the Command queue closes;
transport-subscription failures, topology updates, transport updates and zone
actions are handled locally and never abort it; but a failure while
re-establishing the *topology* subscription (no registered device, missing
service, or failed rediscovery) propagates and makes the loop return with an
error.  On tagged (well-formed) event streams the loop also never panics. -/
theorem runLoop_exit_characterization (env : Env) :
    ∀ (msgs : List LoopMsg) (st : Controller), msgs.all LoopMsg.wf = true →
      (∀ st', runLoop env st msgs = .closed st' → msgs.any isQueueClosedMsg = true) ∧
      (∀ er, runLoop env st msgs = .failed er → msgs.any isTopoFailureMsg = true) ∧
      runLoop env st msgs ≠ .panicked := by
  intro msgs
  induction msgs with
  | nil =>
    intro st _
    refine ⟨?_, ?_, ?_⟩
    · intro st' h; rw [runLoop] at h; cases h
    · intro er h; rw [runLoop] at h; cases h
    · intro h; rw [runLoop] at h; cases h
  | cons msg rest ih =>
    intro st hwf
    rw [List.all_cons, Bool.and_eq_true] at hwf
    obtain ⟨hwf1, hwfr⟩ := hwf
    cases msg with
    | queueClosed =>
      refine ⟨?_, ?_, ?_⟩
      · intro st' _
        rw [List.any_cons, Bool.or_eq_true]
        exact Or.inl rfl
      · intro er h; rw [runLoop] at h; cases h
      · intro h; rw [runLoop] at h; cases h
    | cmd =>
      rcases ih _ hwfr with ⟨ih1, ih2, ih3⟩
      refine ⟨?_, ?_, ?_⟩
      · intro st' h
        rw [runLoop] at h
        rw [List.any_cons, Bool.or_eq_true]
        exact Or.inr (ih1 st' h)
      · intro er h
        rw [runLoop] at h
        rw [List.any_cons, Bool.or_eq_true]
        exact Or.inr (ih2 er h)
      · intro h; rw [runLoop] at h; exact ih3 h
    | streamEmpty =>
      rcases ih _ hwfr with ⟨ih1, ih2, ih3⟩
      refine ⟨?_, ?_, ?_⟩
      · intro st' h
        rw [runLoop] at h
        rw [List.any_cons, Bool.or_eq_true]
        exact Or.inr (ih1 st' h)
      · intro er h
        rw [runLoop] at h
        rw [List.any_cons, Bool.or_eq_true]
        exact Or.inr (ih2 er h)
      · intro h; rw [runLoop] at h; exact ih3 h
    | event e =>
      rcases hE : handle_event env { st with queued_event_handles := [] } e
        with st1 | er1 | _
      · rcases ih st1 hwfr with ⟨ih1, ih2, ih3⟩
        refine ⟨?_, ?_, ?_⟩
        · intro st' h
          rw [runLoop] at h
          rw [hE] at h
          rw [List.any_cons, Bool.or_eq_true]
          exact Or.inr (ih1 st' h)
        · intro er h
          rw [runLoop] at h
          rw [hE] at h
          rw [List.any_cons, Bool.or_eq_true]
          exact Or.inr (ih2 er h)
        · intro h
          rw [runLoop] at h
          rw [hE] at h
          exact ih3 h
      · refine ⟨?_, ?_, ?_⟩
        · intro st' h
          rw [runLoop] at h
          rw [hE] at h
          cases h
        · intro er h
          rcases handle_event_err_topo hE with ⟨u, rfl⟩
          rw [List.any_cons, Bool.or_eq_true]
          exact Or.inl rfl
        · intro h
          rw [runLoop] at h
          rw [hE] at h
          cases h
      · exact absurd hE (handle_event_no_panic hwf1)

/-- C1 amended witness: a stream that closes the queue after one recoverable
transport-subscription failure exits cleanly, never panics, and any failed exit
would stem from a topology-failure event. -/
theorem runLoop_exit_characterization_witness :
    (∀ st', runLoop unreachableEnv twoZoneController
        [LoopMsg.event (Event.SubscribeError (some "U2") URN.avTransport), LoopMsg.queueClosed]
        = .closed st' →
      [LoopMsg.event (Event.SubscribeError (some "U2") URN.avTransport),
        LoopMsg.queueClosed].any isQueueClosedMsg = true) ∧
    (∀ er, runLoop unreachableEnv twoZoneController
        [LoopMsg.event (Event.SubscribeError (some "U2") URN.avTransport), LoopMsg.queueClosed]
        = .failed er →
      [LoopMsg.event (Event.SubscribeError (some "U2") URN.avTransport),
        LoopMsg.queueClosed].any isTopoFailureMsg = true) ∧
    runLoop unreachableEnv twoZoneController
        [LoopMsg.event (Event.SubscribeError (some "U2") URN.avTransport), LoopMsg.queueClosed]
      ≠ .panicked :=
  runLoop_exit_characterization unreachableEnv
    [LoopMsg.event (Event.SubscribeError (some "U2") URN.avTransport), LoopMsg.queueClosed]
    twoZoneController (by decide)

/-! ## C4 -/

/-- C4 counterexample: on a topology SubscriptionFailure with zero registered
devices the handler does *not* rediscover — it fails with `NoSpeakersDetected`
before reaching the rediscovery path and the loop aborts, even though
rediscovery (had it been attempted) would have succeeded and rebuilt the
registry. -/
theorem topo_failure_without_devices_aborts :
    handle_event rediscoverableEnv emptyController
        (.SubscribeError none .zoneGroupTopology)
      = .err (.Sonor .NoSpeakersDetected) ∧
    runLoop rediscoverableEnv emptyController
        [LoopMsg.event (Event.SubscribeError none URN.zoneGroupTopology)]
      = .failed (.Sonor .NoSpeakersDetected) ∧
    rediscoverableEnv.discover = .ok snapshotT2 ∧
    (update_from_topology rediscoverableEnv emptyController snapshotT2).2 = none := by
  decide

/-- C4 amended: on a topology SubscriptionFailure the handler errors out with
`NoSpeakersDetected` (aborting the loop) when no device is registered; full
rediscovery runs only on the other path — some registered device was picked but
subscribing to it failed — and then the handler's result is exactly the
rediscovery's result. -/
theorem topo_failure_recovery_characterization
    (env : Env) (st : Controller) (u : Option Uuid) :
    (st.speakerdata = [] →
      handle_event env st (.SubscribeError u .zoneGroupTopology)
        = .err (.Sonor .NoSpeakersDetected)) ∧
    (∀ sp, get_a_service_and_url env st .zoneGroupTopology = .ok sp →
      env.topoSubscribe sp = none →
      handle_event env st (.SubscribeError u .zoneGroupTopology)
        = match discover_system env st with
          | .ok st' => .ok st'
          | .error e => .err e) := by
  constructor
  · intro hempty
    have hG : get_a_service_and_url env st .zoneGroupTopology
        = .error (.Sonor .NoSpeakersDetected) := by
      rw [get_a_service_and_url, hempty]
    rw [handle_event, hG]
  · intro sp hsp hsub
    rw [handle_event]
    simp only [hsp, hsub]

/-- C4 witness: with no registered device the handler fails with
`NoSpeakersDetected`; with a registered device whose topology subscribe fails,
the handler performs the rediscovery and returns its result. -/
theorem topo_failure_recovery_characterization_witness :
    (emptyController.speakerdata = [] →
      handle_event rediscoverableEnv emptyController
          (.SubscribeError none .zoneGroupTopology)
        = .err (.Sonor .NoSpeakersDetected)) ∧
    (∀ sp, get_a_service_and_url noTopoSubEnv twoZoneController .zoneGroupTopology = .ok sp →
      noTopoSubEnv.topoSubscribe sp = none →
      handle_event noTopoSubEnv twoZoneController
          (.SubscribeError none .zoneGroupTopology)
        = match discover_system noTopoSubEnv twoZoneController with
          | .ok st' => .ok st'
          | .error e => .err e) :=
  ⟨(topo_failure_recovery_characterization rediscoverableEnv emptyController none).1,
   (topo_failure_recovery_characterization noTopoSubEnv twoZoneController none).2⟩

/-! ## C5 -/

/-- C5 counterexample: a transport SubscriptionFailure for U2 whose descriptor
resolution *fails* does not drop U2's record — the record is pushed back
unchanged and the registry still contains U2 (contrary to the claim that a
record whose resolution fails is dropped from the registry). -/
theorem transport_failure_keeps_unresolvable_record :
    unreachableEnv.fromSpeakerInfo (mkRecord "Den" "U2" "http://b").speaker.info
      = .error .UPnPError ∧
    handle_event unreachableEnv twoZoneController
        (.SubscribeError (some "U2") .avTransport)
      = .ok twoZoneController ∧
    registeredCI twoZoneController "U2" = true := by
  decide

/-- C5 amended: on a transport SubscriptionFailure for uuid X the handler
removes X's record and re-resolves X from its last known descriptor; the record
is then *always* reinserted (keeping its previous speaker handle and cached
status): with a fresh subscription when resolution and resubscription succeed,
without one when only resolution succeeds, and entirely unchanged — not dropped
— when resolution fails, leaving a later topology update to reconcile it. -/
theorem transport_failure_reinserts_record
    (env : Env) (st : Controller) (u : Uuid) (sd : SpeakerData) (rest : List SpeakerData)
    (hpop : popByUuid st.speakerdata u = some (sd, rest)) :
    ∃ st', handle_event env st (.SubscribeError (some u) .avTransport) = .ok st' ∧
      (∃ sub, st'.speakerdata = rest ++ [{ sd with transport_subscription := sub }]) ∧
      (∀ e, env.fromSpeakerInfo sd.speaker.info = .error e →
        st'.speakerdata = rest ++ [sd]) ∧
      (env.fromSpeakerInfo sd.speaker.info = .ok none →
        st'.speakerdata = rest ++ [sd]) ∧
      (∀ sp rx, env.fromSpeakerInfo sd.speaker.info = .ok (some sp) →
        env.avSubscribe sp = some rx →
        st'.speakerdata = rest ++ [{ sd with transport_subscription := some rx }]) ∧
      (∀ sp, env.fromSpeakerInfo sd.speaker.info = .ok (some sp) →
        env.avSubscribe sp = none →
        st'.speakerdata = rest ++ [{ sd with transport_subscription := none }]) := by
  rw [handle_event]
  simp only [hpop]
  rcases hf : env.fromSpeakerInfo sd.speaker.info with ef | osp
  · simp only [hf]
    refine ⟨_, rfl, ⟨sd.transport_subscription, rfl⟩, ?_, ?_, ?_, ?_⟩
    · intro e _; rfl
    · intro h; cases h
    · intro sp rx h; cases h
    · intro sp h; cases h
  · rcases osp with _ | sp
    · simp only [hf]
      refine ⟨_, rfl, ⟨sd.transport_subscription, rfl⟩, ?_, ?_, ?_, ?_⟩
      · intro e h; cases h
      · intro _; rfl
      · intro sp rx h; cases h
      · intro sp h; cases h
    · simp only [hf]
      rcases hs : env.avSubscribe sp with _ | rx
      · simp only [hs]
        refine ⟨_, rfl, ⟨none, rfl⟩, ?_, ?_, ?_, ?_⟩
        · intro e h; cases h
        · intro h; cases h
        · intro sp' rx h hs'
          cases h
          rw [hs] at hs'
          cases hs'
        · intro sp' h hs'; rfl
      · simp only [hs]
        refine ⟨_, rfl, ⟨some rx, rfl⟩, ?_, ?_, ?_, ?_⟩
        · intro e h; cases h
        · intro h; cases h
        · intro sp' rx' h hs'
          cases h
          rw [hs] at hs'
          cases hs'
          rfl
        · intro sp' h hs'
          cases h
          rw [hs] at hs'
          cases hs'

/-- C5 witness: with U2 popped from the two-zone registry and a resolver that
fails, the handler reinserts U2's record unchanged. -/
theorem transport_failure_reinserts_record_witness :
    ∃ st', handle_event unreachableEnv twoZoneController
        (.SubscribeError (some "U2") .avTransport) = .ok st' ∧
      (∃ sub, st'.speakerdata = [mkRecord "Kitchen" "U1" "http://a"]
          ++ [{ mkRecord "Den" "U2" "http://b" with transport_subscription := sub }]) ∧
      (∀ e, unreachableEnv.fromSpeakerInfo (mkRecord "Den" "U2" "http://b").speaker.info
          = .error e →
        st'.speakerdata = [mkRecord "Kitchen" "U1" "http://a"] ++ [mkRecord "Den" "U2" "http://b"]) ∧
      (unreachableEnv.fromSpeakerInfo (mkRecord "Den" "U2" "http://b").speaker.info = .ok none →
        st'.speakerdata = [mkRecord "Kitchen" "U1" "http://a"] ++ [mkRecord "Den" "U2" "http://b"]) ∧
      (∀ sp rx, unreachableEnv.fromSpeakerInfo (mkRecord "Den" "U2" "http://b").speaker.info
          = .ok (some sp) →
        unreachableEnv.avSubscribe sp = some rx →
        st'.speakerdata = [mkRecord "Kitchen" "U1" "http://a"]
          ++ [{ mkRecord "Den" "U2" "http://b" with transport_subscription := some rx }]) ∧
      (∀ sp, unreachableEnv.fromSpeakerInfo (mkRecord "Den" "U2" "http://b").speaker.info
          = .ok (some sp) →
        unreachableEnv.avSubscribe sp = none →
        st'.speakerdata = [mkRecord "Kitchen" "U1" "http://a"]
          ++ [{ mkRecord "Den" "U2" "http://b" with transport_subscription := none }]) :=
  transport_failure_reinserts_record unreachableEnv twoZoneController "U2"
    (mkRecord "Den" "U2" "http://b") [mkRecord "Kitchen" "U1" "http://a"] (by decide)

/-! ## C6 -/

/-- C6: `get_coordinator_for_name` matches the requested zone name against
display names ASCII-case-insensitively, looks the matched record's group up and
returns that group's coordinator record, or none when no record matches; in
particular, for a group with coordinator `d1` and members `[d1, d2]`, resolving
a name matching either member's display name returns `d1`'s record. -/
theorem resolve_coordinator_by_zone_name :
    (∀ (st : Controller) (q : String),
        st.speakerdata.all (fun sd => !(eqIgnoreAsciiCase sd.speaker.info.name q)) = true →
        get_coordinator_for_name st q = none) ∧
    (∀ (st : Controller) (d1 d2 : SpeakerData) (q : String),
        st.speakerdata = [d1, d2] →
        st.topology = [(d1.speaker.info.uuid, [d1.speaker.info.uuid, d2.speaker.info.uuid])] →
        (eqIgnoreAsciiCase d1.speaker.info.name q = true ∨
          eqIgnoreAsciiCase d2.speaker.info.name q = true) →
        get_coordinator_for_name st q = some d1.speaker) := by
  constructor
  · intro st q hall
    have hnone : get_speaker_with_name st q = none := by
      rw [get_speaker_with_name, List.findSome?_eq_none_iff]
      intro sd hsd
      have hmatch := List.all_eq_true.mp hall sd hsd
      rw [Bool.not_eq_true'] at hmatch
      simp [hmatch]
    rw [get_coordinator_for_name, hnone]
    rfl
  · intro st d1 d2 q h1 h2 hq
    by_cases hd1 : eqIgnoreAsciiCase d1.speaker.info.name q = true
    · simp [get_coordinator_for_name, get_speaker_with_name, h1, h2, hd1,
        get_coordinator_for_uuid, coordinatorUuidFor, get_speaker_by_uuid,
        List.findSome?_cons, List.any_cons, eqIgnoreAsciiCase_refl]
    · rcases hq with hq1 | hq2
      · exact absurd hq1 hd1
      · rw [Bool.not_eq_true] at hd1
        simp [get_coordinator_for_name, get_speaker_with_name, h1, h2, hd1, hq2,
          get_coordinator_for_uuid, coordinatorUuidFor, get_speaker_by_uuid,
          List.findSome?_cons, List.any_cons, eqIgnoreAsciiCase_refl]

/-- C6 witness: on the two-zone registry, a differently-cased query for either
the coordinator's or the plain member's zone name resolves the coordinator
record, and an unknown name resolves nothing. -/
theorem resolve_coordinator_by_zone_name_witness :
    get_coordinator_for_name twoZoneController "dEn"
      = some (mkSpeaker "Kitchen" "U1" "http://a") ∧
    get_coordinator_for_name twoZoneController "KITCHEN"
      = some (mkSpeaker "Kitchen" "U1" "http://a") ∧
    get_coordinator_for_name twoZoneController "Garage" = none :=
  ⟨resolve_coordinator_by_zone_name.2 twoZoneController
      (mkRecord "Kitchen" "U1" "http://a") (mkRecord "Den" "U2" "http://b") "dEn"
      rfl rfl (Or.inr (by decide)),
   resolve_coordinator_by_zone_name.2 twoZoneController
      (mkRecord "Kitchen" "U1" "http://a") (mkRecord "Den" "U2" "http://b") "KITCHEN"
      rfl rfl (Or.inl (by decide)),
   resolve_coordinator_by_zone_name.1 twoZoneController "Garage" (by decide)⟩

/-! ## C7 -/

/-- C7: `seek_rel_track` reads the current track number, adds the signed delta,
clamps the result to a minimum of 1, and issues exactly one absolute seek to
that track (so never to track 0 or below); stated on the panic-free i32 range. -/
theorem seek_rel_track_clamps_to_one
    (env : Env) (sd : SpeakerData) (delta : Int) (n : Nat) (tr : List RemoteCall)
    (hn : SpeakerData.get_current_track_no env sd = (.ok n, tr))
    (hmax : (n : Int) ≤ i32max)
    (hlo : -2147483648 ≤ (n : Int) + delta)
    (hhi : (n : Int) + delta ≤ 2147483647) :
    (seek_rel_track env delta sd).2
        = tr ++ [RemoteCall.seekTrack (max 1 ((n : Int) + delta)).toNat] ∧
    1 ≤ (max 1 ((n : Int) + delta)).toNat := by
  have hwrap : wrap32 ((n : Int) + delta) = (n : Int) + delta := by
    rw [wrap32]; omega
  have h1le : 1 ≤ max 1 ((n : Int) + delta) := le_max_left _ _
  constructor
  · rw [seek_rel_track]
    simp only [hn]
    have hng : ¬ ((n : Int) > i32max) := by rw [i32max] at hmax ⊢; omega
    rw [if_neg hng]
    simp only [hwrap]
    rcases lt_or_le ((n : Int) + delta) 1 with hlt | hge
    · rw [if_pos hlt, max_eq_left (le_of_lt hlt)]
      rcases hc : env.transportCall sd.speaker (.seekTrack 1) with e | u <;>
        simp [hc, Int.toNat_one]
    · rw [if_neg (not_lt.mpr hge), max_eq_right hge]
      rcases hc : env.transportCall sd.speaker (.seekTrack ((n : Int) + delta).toNat)
        with e | u <;> simp [hc]
  · omega

/-- C7 witness: at current track 1 with delta −5 the single issued call is an
absolute seek to track 1. -/
theorem seek_rel_track_clamps_to_one_witness :
    (seek_rel_track baseEnv (-5) trackOneRecord).2
        = [] ++ [RemoteCall.seekTrack (max 1 (((1 : Nat) : Int) + (-5 : Int))).toNat] ∧
    1 ≤ (max 1 (((1 : Nat) : Int) + (-5 : Int))).toNat :=
  seek_rel_track_clamps_to_one baseEnv trackOneRecord (-5) 1 []
    (by decide) (by decide) (by decide) (by decide)

/-! ## C8 -/

/-- Media resolution only ever performs read-only remote calls (browsing). -/
theorem get_uri_and_metadata_calls_nonmutating (env : Env) (m : MediaSource) (sp : Speaker) :
    ((get_uri_and_metadata env m sp).2.all (fun c => !(isMutating c))) = true := by
  cases m with
  | Apple item => rfl
  | Spotify item => rfl
  | SonosPlaylist item =>
    rw [get_uri_and_metadata]
    split
    · rfl
    · split
      · rfl
      · split <;> rfl
  | SonosFavorite item =>
    rw [get_uri_and_metadata]
    split
    · rfl
    · split
      · rfl
      · split <;> rfl

/-- C8 counterexample: `QueueAsNext` with an empty status cache issues a live
current-track query on the coordinator *before* resolving the media, so a
resolution failure (`Apple "noise"` resolves to nothing, without any browse)
still sees one remote call attempted, contrary to "resolved before anything
else / no remote call is attempted". -/
theorem queue_as_next_queries_before_resolution :
    handle_action track3Env twoZoneController "Den"
        (.QueueAsNext (.Apple "noise"))
      = (Response.NotOk, [RemoteCall.trackQuery]) ∧
    (get_uri_and_metadata track3Env (.Apple "noise")
        (mkSpeaker "Kitchen" "U1" "http://a")).1 = none := by
  decide

/-- C8 amended: for PlayNow the media is resolved before any remote call and a
resolution failure is a ContentNotFound that yields NotOk with only the
resolution's own (read-only browse) calls attempted; for QueueAsNext a
resolution failure also yields NotOk and no state-changing call is ever
attempted, but the current-track read (a live query when the cache is empty)
happens before resolution. -/
theorem resolution_failure_yields_notok
    (env : Env) (st : Controller) (name : String) (m : MediaSource) (cd : SpeakerData)
    (hcd : get_coordinatordata_for_name st name = some cd)
    (hres : (get_uri_and_metadata env m cd.speaker).1 = none) :
    handle_action env st name (.PlayNow m)
        = (Response.NotOk, (get_uri_and_metadata env m cd.speaker).2) ∧
    (play_now env m cd).1 = Except.error MgrError.ContentNotFound ∧
    (handle_action env st name (.QueueAsNext m)).1 = Response.NotOk ∧
    ((handle_action env st name (.QueueAsNext m)).2.all (fun c => !(isMutating c))) = true := by
  obtain ⟨uri_calls, hpair⟩ : ∃ calls, get_uri_and_metadata env m cd.speaker = (none, calls) :=
    ⟨(get_uri_and_metadata env m cd.speaker).2, by rw [← hres]⟩
  have h2 : (get_uri_and_metadata env m cd.speaker).2 = uri_calls := by rw [hpair]
  have hcallsall : uri_calls.all (fun c => !(isMutating c)) = true := by
    rw [← h2]; exact get_uri_and_metadata_calls_nonmutating env m cd.speaker
  have hplay : play_now env m cd = (.error .ContentNotFound, uri_calls) := by
    rw [play_now, hpair]
  have hqnw : ∀ k trc, queue_next_with env m cd k trc
      = (.error .ContentNotFound, trc ++ uri_calls) := by
    intro k trc
    rw [queue_next_with, hpair]
  have hqerr : (queue_as_next env m cd).1 = .error .ContentNotFound ∨
      ∃ e, (queue_as_next env m cd).1 = .error (.Sonor e) := by
    rw [queue_as_next]
    rcases hcache : cd.transport_data.findSome? (fun kv => some kv.2) with _ | v
    · simp only [hcache]
      rcases ht : env.trackQuery cd.speaker with e | t
      · simp only [ht]
        exact Or.inr ⟨e, rfl⟩
      · simp only [ht, hqnw]
        simp
    · simp only [hcache]
      rcases hp : parseU32 v with _ | k
      · simp only [hp]
        simp
      · simp only [hp, hqnw]
        simp
  have hqall : (queue_as_next env m cd).2.all (fun c => !(isMutating c)) = true := by
    rw [queue_as_next]
    rcases hcache : cd.transport_data.findSome? (fun kv => some kv.2) with _ | v
    · simp only [hcache]
      rcases ht : env.trackQuery cd.speaker with e | t
      · simp only [ht]
        rfl
      · simp only [ht, hqnw]
        show (([RemoteCall.trackQuery] ++ uri_calls).all fun c => !(isMutating c)) = true
        rw [List.all_append, hcallsall, Bool.and_true]
        rfl
    · simp only [hcache]
      rcases hp : parseU32 v with _ | k
      · simp only [hp]
        rfl
      · simp only [hp, hqnw]
        show (([] ++ uri_calls).all fun c => !(isMutating c)) = true
        rw [List.nil_append, hcallsall]
  refine ⟨?_, ?_, ?_, ?_⟩
  · rw [handle_action, withCoordinatorData]
    simp only [hcd, hplay, h2]
  · rw [hplay]
  · rw [handle_action, withCoordinatorData]
    simp only [hcd]
    rcases hqa : queue_as_next env m cd with ⟨r, trc⟩
    rcases hqerr with h | ⟨e, h⟩ <;> (rw [hqa] at h; simp at h; rw [h])
  · rw [handle_action, withCoordinatorData]
    simp only [hcd]
    rcases hqa : queue_as_next env m cd with ⟨r, trc⟩
    rw [hqa] at hqall
    rcases hqerr with h | ⟨e, h⟩ <;> (rw [hqa] at h; simp at h; rw [h]) <;> exact hqall

/-- C8 amended witness: with the coordinator resolved and `Apple "noise"`
unresolvable, PlayNow and QueueAsNext both answer NotOk without any
state-changing remote call. -/
theorem resolution_failure_yields_notok_witness :
    handle_action track3Env twoZoneController "Den" (.PlayNow (.Apple "noise"))
        = (Response.NotOk,
            (get_uri_and_metadata track3Env (.Apple "noise")
              (mkRecord "Kitchen" "U1" "http://a").speaker).2) ∧
    (play_now track3Env (.Apple "noise") (mkRecord "Kitchen" "U1" "http://a")).1
        = Except.error MgrError.ContentNotFound ∧
    (handle_action track3Env twoZoneController "Den"
        (.QueueAsNext (.Apple "noise"))).1 = Response.NotOk ∧
    ((handle_action track3Env twoZoneController "Den"
        (.QueueAsNext (.Apple "noise"))).2.all (fun c => !(isMutating c))) = true :=
  resolution_failure_yields_notok track3Env twoZoneController "Den" (.Apple "noise")
    (mkRecord "Kitchen" "U1" "http://a") (by decide) (by decide)

/-! ## C9 -/

/-- C9: the claim is what the code *intends* (its comment says "Look for
current track number in transport_data, otherwise fetch it"), but the closure
`{k.eq_ignore_ascii_case("CurrentTrack"); Some(v)}` discards the key
comparison, so `find_map` yields the *first* cached field's value whatever its
key.  At the failing input — cache `[CurrentPlayMode=NORMAL, CurrentTrack=7]`
with resolvable media — the code parses "NORMAL", fails, and returns
ContentNotFound without enqueueing, instead of enqueueing at 7+1=8. -/
theorem queue_as_next_misreads_cached_track :
    queue_as_next track3Env (.Apple "song:123") staleCacheRecord
      = (.error .ContentNotFound, []) ∧
    (get_uri_and_metadata track3Env (.Apple "song:123") staleCacheRecord.speaker).1.isSome
      = true ∧
    staleCacheRecord.transport_data
      = [("CurrentPlayMode", "NORMAL"), ("CurrentTrack", "7")] := by
  decide

/-! ## C10 -/

/-- C10: the Exists action replies positively exactly when some registered
display name equals the request byte-for-byte (Rust `==`), while coordinator
resolution matches ASCII-case-insensitively — so "kitchen" resolves the
coordinator of the zone stored as "Kitchen" yet fails the Exists check. -/
theorem exists_check_is_case_sensitive :
    (∀ (env : Env) (st : Controller) (name : String),
        (handle_action env st name .Exists).1 = Response.Ok ↔
          ∃ sd ∈ st.speakerdata, sd.speaker.info.name = name) ∧
    (get_coordinator_for_name twoZoneController "kitchen"
        = some (mkSpeaker "Kitchen" "U1" "http://a") ∧
      (handle_action baseEnv twoZoneController "kitchen" .Exists).1 = Response.NotOk ∧
      (handle_action baseEnv twoZoneController "Kitchen" .Exists).1 = Response.Ok) := by
  constructor
  · intro env st name
    rw [handle_action]
    by_cases ha : (st.speakerdata.any fun s => s.speaker.info.name == name) = true
    · rw [if_pos ha]
      constructor
      · intro _
        rcases List.any_eq_true.mp ha with ⟨sd, hsd, hname⟩
        exact ⟨sd, hsd, by rwa [beq_iff_eq] at hname⟩
      · intro _; rfl
    · rw [if_neg ha]
      constructor
      · intro h; simp at h
      · rintro ⟨sd, hsd, hname⟩
        exact absurd
          (List.any_eq_true.mpr ⟨sd, hsd, by rw [hname]; exact beq_self_eq_true _⟩) ha
  · decide

end Sonor
